import Mathlib

/-!
# cert-keeper: verification of the certificate lifecycle

A shallow embedding of the cert-keeper sidecar proxy's certificate
lifecycle code, with theorems checking the natural-language specification
against it.  The embedding covers:

* `Error` — the error enumeration of `src/error.rs`;
* `CertBundle`, `issue_certificate` — Vault PKI issuance (`src/vault/pki.rs`);
* `kubernetes_login` — Vault Kubernetes auth (`src/vault/auth.rs`), with the
  session-token slot passed and returned explicitly;
* `CertStore.write`, `atomic_write` — the on-disk store (`src/cert/store.rs`),
  embedded as the list of filesystem operations it performs;
* `renewalIteration`, `runRenewalLoop` — the renewal loop of
  `CertManager::run_renewal_loop` (`src/cert/manager.rs`), embedded as a
  state-transition function over per-iteration outcomes, producing a trace of
  observable events (sleeps, attempts, publishes);
* `validate_renewal_threshold` — the `RENEWAL_THRESHOLD` range check of
  `Config::from_env` (`src/config.rs`).

Effectful Rust code is embedded by making its environment explicit: HTTP
responses, the service-account token file and per-iteration renewal outcomes
are inputs; filesystem writes and channel publishes are events in an output
trace.  Machine integers (`u64` lease seconds) are `Nat`; the `f64` renewal
threshold is modelled as `ℚ` (the comparisons and the truncating
multiplication in the source are exact order-preserving operations on the
represented values).
-/

namespace CertKeeper

/-- The error enumeration of `src/error.rs` (`Error`).  The `reqwest`,
`io` and `serde_json` payloads are opaque in the source and are modelled by
their display strings.  `Http`, `Io` and `Json` are suffixed with `Error`
where the Rust names would clash with reserved Lean spellings. -/
inductive Error where
  | Config (msg : String)
  | VaultAuth (msg : String)
  | VaultPki (msg : String)
  | Tls (msg : String)
  | CertParse (msg : String)
  | HttpError (msg : String)
  | IoError (msg : String)
  | JsonError (msg : String)
deriving DecidableEq, Repr

/-- `CertBundle` from `src/vault/pki.rs`: PEM leaf-plus-issuer chain, PEM
private key, PEM issuing CA, and the lease duration in seconds (`u64`,
modelled as `Nat`). -/
structure CertBundle where
  certificate : String
  private_key : String
  ca_certificate : String
  lease_duration_secs : Nat
deriving DecidableEq, Repr

/-- The outcome of one HTTP POST as the Rust code observes it: a transport
error from `send()`, or a response with a status code, an optional decoded
body (`none` models a body `response.json()` fails to decode) and the raw
body text used in error messages. -/
inductive HttpResult (α : Type) where
  | transportErr
  | response (status : Nat) (body : Option α) (bodyText : String)
deriving DecidableEq, Repr

/-- Decidable equality for `Except`, used to evaluate the embedded fallible
operations on concrete inputs. -/
instance {ε α : Type} [DecidableEq ε] [DecidableEq α] : DecidableEq (Except ε α)
  | .error a, .error b =>
      if h : a = b then .isTrue (by rw [h]) else .isFalse (by simp [h])
  | .error _, .ok _ => .isFalse (by simp)
  | .ok _, .error _ => .isFalse (by simp)
  | .ok a, .ok b =>
      if h : a = b then .isTrue (by rw [h]) else .isFalse (by simp [h])

/-- `reqwest::StatusCode::is_success`: the status lies in `200..=299`. -/
def statusIsSuccess (status : Nat) : Bool :=
  200 ≤ status && status < 300

/-- The `auth` object of a decoded login response (`AuthData` in
`src/vault/auth.rs`). -/
structure AuthData where
  client_token : String
  lease_duration : Nat
deriving DecidableEq, Repr

/-- `kubernetes_login` from `src/vault/auth.rs`, with the client's
session-token slot (`VaultClient.token`) passed in and the possibly updated
slot returned alongside the Rust return value `Result<()>`.

The environment is explicit: `saToken` is the result of reading the
service-account token file (`none` models an unreadable file), `http` the
outcome of the login POST.  The source path is: read token file (error →
`VaultAuth`), send (transport error → `Http`), non-2xx status → `VaultAuth`
with status and body, undecodable body → `Http` (a `reqwest::Error` from
`response.json()`, via `#[from]`), and only then
`client.set_token(auth.client_token)` followed by `Ok(())`. -/
def kubernetes_login (token_slot : String) (saToken : Option String)
    (http : HttpResult AuthData) : String × Except Error Unit :=
  match saToken with
  | none =>
      (token_slot, .error (.VaultAuth "failed to read service account token"))
  | some _jwt =>
      match http with
      | .transportErr => (token_slot, .error (.HttpError "request failed"))
      | .response status body bodyText =>
          if ¬ statusIsSuccess status then
            (token_slot,
              .error (.VaultAuth s!"login returned {status}: {bodyText}"))
          else
            match body with
            | none =>
                (token_slot, .error (.HttpError "error decoding response body"))
            | some auth => (auth.client_token, .ok ())

/-- Rust `str::trim`: remove whitespace from both ends.  Written
structurally over the character list so it evaluates by reduction;
`Char.isWhitespace` covers the ASCII whitespace that occurs in PEM text,
on which it agrees with Rust's Unicode `char::is_whitespace`. -/
def strTrim (s : String) : String :=
  ⟨((s.data.dropWhile Char.isWhitespace).reverse.dropWhile
      Char.isWhitespace).reverse⟩

/-- The `data` object of a decoded PKI issue response (`PkiData` in
`src/vault/pki.rs`). -/
structure PkiData where
  certificate : String
  issuing_ca : String
  private_key : String
deriving DecidableEq, Repr

/-- A decoded PKI issue response (`PkiResponse` in `src/vault/pki.rs`):
the `data` object plus the top-level `lease_duration`. -/
structure PkiResponse where
  data : PkiData
  lease_duration : Nat
deriving DecidableEq, Repr

/-- `issue_certificate` from `src/vault/pki.rs`.  The request side (URL,
token header, namespace header, JSON body) does not affect the returned
value and is elided; `http` is the outcome of the POST.  On success the
source builds `full_chain = format!("{}\n{}", leaf.trim(), issuer.trim())`
and returns the bundle; `strTrim` models `str::trim`. -/
def issue_certificate (http : HttpResult PkiResponse) : Except Error CertBundle :=
  match http with
  | .transportErr => .error (.HttpError "request failed")
  | .response status body bodyText =>
      if ¬ statusIsSuccess status then
        .error (.VaultPki s!"PKI issue returned {status}: {bodyText}")
      else
        match body with
        | none => .error (.HttpError "error decoding response body")
        | some resp =>
            .ok { certificate :=
                    strTrim resp.data.certificate ++ "\n" ++
                      strTrim resp.data.issuing_ca
                  private_key := resp.data.private_key
                  ca_certificate := resp.data.issuing_ca
                  lease_duration_secs := resp.lease_duration }

/-! ## The identity store (`src/cert/store.rs`)

`CertStore::write` is embedded as the list of filesystem operations it
performs, in order.  The interesting content of the claims about it is which
paths are written and renamed and in what order. -/

/-- One filesystem operation performed by the store. -/
inductive FsOp where
  | createDirAll (dir : String)
  | writeFile (path contents : String)
  | rename (src dst : String)
deriving DecidableEq, Repr

/-- Split a character list at every occurrence of `sep` (the semantics of
`String.splitOn` with a one-character separator, written structurally so
that it evaluates by reduction). -/
def splitOnChar (sep : Char) : List Char → List (List Char)
  | [] => [[]]
  | c :: cs =>
      match splitOnChar sep cs with
      | [] => [[c]]
      | r :: rs => if c = sep then [] :: r :: rs else (c :: r) :: rs

/-- Join character-list segments with `sep` between them (the inverse of
`splitOnChar`). -/
def joinWith (sep : Char) : List (List Char) → List Char
  | [] => []
  | [x] => x
  | x :: xs => x ++ sep :: joinWith sep xs

/-- Rust `Path::with_extension(ext)` as used on the store's paths: on the
final path component, the portion after the last `.` (the extension) is
*replaced* by `ext`; a component without a `.` gets `.ext` appended.  This
models the Rust semantics for ordinary file names such as `tls.crt` (names
whose stem is non-empty and not dot-led, which is all the store uses). -/
def withExtension (path ext : String) : String :=
  let comps := splitOnChar '/' path.data
  let file := comps.getLastD []
  let newFile :=
    match splitOnChar '.' file with
    | [] => file ++ '.' :: ext.data
    | [single] => single ++ '.' :: ext.data
    | parts => joinWith '.' parts.dropLast ++ '.' :: ext.data
  ⟨joinWith '/' (comps.dropLast ++ [newFile])⟩

/-- `CertStore` from `src/cert/store.rs`: the output directory. -/
structure CertStore where
  dir : String
deriving DecidableEq, Repr

/-- `CertStore::cert_path`: `dir.join("tls.crt")`. -/
def CertStore.cert_path (s : CertStore) : String := s.dir ++ "/tls.crt"

/-- `CertStore::key_path`: `dir.join("tls.key")`. -/
def CertStore.key_path (s : CertStore) : String := s.dir ++ "/tls.key"

/-- `CertStore::ca_path`: `dir.join("ca.crt")`. -/
def CertStore.ca_path (s : CertStore) : String := s.dir ++ "/ca.crt"

/-- `atomic_write` from `src/cert/store.rs`: `tmp = path.with_extension("tmp")`,
write the contents to `tmp`, then rename `tmp` over `path`. -/
def atomic_write (path contents : String) : List FsOp :=
  let tmp := withExtension path "tmp"
  [.writeFile tmp contents, .rename tmp path]

/-- `CertStore::write` from `src/cert/store.rs`: create the directory, then
atomically write cert, key and CA, in that order. -/
def CertStore.write (s : CertStore) (b : CertBundle) : List FsOp :=
  FsOp.createDirAll s.dir ::
    (atomic_write s.cert_path b.certificate ++
     atomic_write s.key_path b.private_key ++
     atomic_write s.ca_path b.ca_certificate)

/-! ## The renewal loop (`src/cert/manager.rs`, `CertManager::run_renewal_loop`)

One loop iteration: sleep `(lease_secs as f64 * threshold) as u64` seconds
(or exit on shutdown), re-authenticate, and on auth success issue a new
certificate; on issue success write to disk (errors only logged), parse the
TLS material (`build_server_config`), and on successful parse send
`Some(material)` on the watch channel; then update `lease_secs` from the
bundle and reset `backoff`.  Auth or issue failure sleeps `backoff` and
doubles it, saturating at 300 s.

The embedding makes the per-iteration environment explicit as an
`IterOutcome` (shutdown, which merely terminates the loop, is not an
outcome), and records the observable actions of an iteration as a trace of
`LoopEvent`s.  Since the loop publishes the parsed `ServerConfig` built from
the bundle, the published material is identified by its bundle. -/

/-- What the external world does in one renewal iteration:
* `authFail` — `kubernetes_login` returns `Err`;
* `issueFail` — login succeeds, `issue_certificate` returns `Err`;
* `renewOk writeOk parseOk bundle` — login and issue succeed with `bundle`;
  `writeOk` is whether `store.write` succeeds, `parseOk` whether
  `build_server_config` succeeds on the bundle's material. -/
inductive IterOutcome where
  | authFail
  | issueFail
  | renewOk (writeOk parseOk : Bool) (bundle : CertBundle)
deriving DecidableEq, Repr

/-- The observable actions of the renewal loop, in order:
the pre-renewal sleep, the login / issue attempts, the backoff sleep after a
failure, the logged-and-ignored disk-write error, and a send on the watch
channel (`tx.send v`, carrying the `Option` the channel holds). -/
inductive LoopEvent where
  | sleptRenew (secs : Nat)
  | loginAttempt
  | issueAttempt
  | sleptBackoff (secs : Nat)
  | writeFailLogged
  | publish (v : Option CertBundle)
deriving DecidableEq, Repr

/-- The loop state carried across iterations: the current lease in seconds,
the backoff in seconds, and the value currently held by the watch channel
(`tx.send` replaces it; `None` until the first publish). -/
structure LoopState where
  lease_secs : Nat
  backoff : Nat
  published : Option CertBundle
deriving DecidableEq, Repr

/-- `max_backoff` in `run_renewal_loop`: 300 seconds. -/
def maxBackoff : Nat := 300

/-- The Rust cast `x as u64` applied to the non-negative product
`lease_secs as f64 * threshold`: truncation toward zero, saturating at 0
from below.  On `ℚ` this is `⌊q⌋` clamped to `Nat`, computed as floor
division of the numerator by the denominator so that it evaluates by
reduction. -/
def castU64 (q : ℚ) : Nat := (q.num.fdiv (q.den : Int)).toNat

/-- One iteration of `run_renewal_loop` under outcome `o`, returning the new
loop state and the event trace of the iteration.  Mirrors the source:

* sleep `(lease_secs as f64 * threshold) as u64` = `⌊lease · threshold⌋`;
* login `Err`: sleep `backoff`, then `backoff = (backoff * 2).min(300)`,
  `continue` (issue is not attempted);
* login `Ok`: `backoff = 5`; issue `Err`: sleep the (reset) backoff, double
  it; issue `Ok(bundle)`: a failed `store.write` is only logged; a failed
  `build_server_config` is only logged and nothing is sent; a successful
  parse sends `Some(material)`; in either case `lease_secs =
  bundle.lease_duration_secs` and `backoff = 5`. -/
def renewalIteration (threshold : ℚ) (s : LoopState) (o : IterOutcome) :
    LoopState × List LoopEvent :=
  let renewAfter : Nat := castU64 ((s.lease_secs : ℚ) * threshold)
  match o with
  | .authFail =>
      ({ s with backoff := min (s.backoff * 2) maxBackoff },
        [.sleptRenew renewAfter, .loginAttempt, .sleptBackoff s.backoff])
  | .issueFail =>
      let backoff1 := 5
      ({ s with backoff := min (backoff1 * 2) maxBackoff },
        [.sleptRenew renewAfter, .loginAttempt, .issueAttempt,
          .sleptBackoff backoff1])
  | .renewOk writeOk parseOk bundle =>
      let writeEvs : List LoopEvent :=
        if writeOk then [] else [.writeFailLogged]
      let published' := if parseOk then some bundle else s.published
      let pubEvs : List LoopEvent :=
        if parseOk then [.publish (some bundle)] else []
      ({ lease_secs := bundle.lease_duration_secs, backoff := 5,
         published := published' },
        [.sleptRenew renewAfter, .loginAttempt, .issueAttempt]
          ++ writeEvs ++ pubEvs)

/-- Run the renewal loop over a finite prefix of iteration outcomes,
accumulating the event trace. -/
def runRenewalLoop (threshold : ℚ) : LoopState → List IterOutcome →
    LoopState × List LoopEvent
  | s, [] => (s, [])
  | s, o :: os =>
      let (s1, evs1) := renewalIteration threshold s o
      let (s2, evs2) := runRenewalLoop threshold s1 os
      (s2, evs1 ++ evs2)

/-- The backoff sleeps of a trace, in order. -/
def backoffSleeps : List LoopEvent → List Nat
  | [] => []
  | .sleptBackoff n :: es => n :: backoffSleeps es
  | _ :: es => backoffSleeps es

/-- The values sent on the watch channel in a trace, in order. -/
def publishedValues : List LoopEvent → List (Option CertBundle)
  | [] => []
  | .publish v :: es => v :: publishedValues es
  | _ :: es => publishedValues es

/-- The `RENEWAL_THRESHOLD` range check of `Config::from_env`
(`src/config.rs` lines 58–67): after parsing, the value is accepted iff
`(0.0..1.0).contains(&t)`, i.e. `0 ≤ t < 1`; otherwise construction fails
with a `Config` error.  The parsed `f64` is modelled as `ℚ`; the two range
comparisons are exact on the represented values. -/
def validate_renewal_threshold (t : ℚ) : Except Error ℚ :=
  if 0 ≤ t ∧ t < 1 then .ok t
  else .error (.Config "RENEWAL_THRESHOLD must be between 0.0 and 1.0")

/-! ## Helper lemmas and concrete fixtures -/

/-- Backoff-sleep extraction distributes over trace concatenation. -/
theorem backoffSleeps_append (a b : List LoopEvent) :
    backoffSleeps (a ++ b) = backoffSleeps a ++ backoffSleeps b := by
  induction a with
  | nil => rfl
  | cons e es ih => cases e <;> simp [backoffSleeps, ih]

/-- Published-value extraction distributes over trace concatenation. -/
theorem publishedValues_append (a b : List LoopEvent) :
    publishedValues (a ++ b) = publishedValues a ++ publishedValues b := by
  induction a with
  | nil => rfl
  | cons e es ih => cases e <;> simp [publishedValues, ih]

/-- A concrete bundle used in witnesses and counterexamples. -/
def bundleA : CertBundle :=
  { certificate := "CERT-A", private_key := "KEY-A", ca_certificate := "CA-A",
    lease_duration_secs := 3600 }

/-- A second concrete bundle with a different lease. -/
def bundleB : CertBundle :=
  { certificate := "CERT-B", private_key := "KEY-B", ca_certificate := "CA-B",
    lease_duration_secs := 7200 }

/-- Saturated doubling under a later doubling: capping `b·2` at 300 and
then doubling `i` more times, re-capping, is the same as capping `b·2^(i+1)`
directly. -/
theorem saturating_double_pow (b i : Nat) :
    min (min (b * 2) maxBackoff * 2 ^ i) maxBackoff =
      min (b * 2 ^ (i + 1)) maxBackoff := by
  have hp : 0 < 2 ^ i := pow_pos (by norm_num) i
  rcases Nat.le_total (b * 2) maxBackoff with hb | hb
  · rw [Nat.min_eq_left hb]
    congr 1
    rw [pow_succ]
    ring
  · rw [Nat.min_eq_right hb]
    have h1 : maxBackoff ≤ maxBackoff * 2 ^ i := Nat.le_mul_of_pos_right _ hp
    have h2 : maxBackoff ≤ b * 2 ^ (i + 1) := by
      calc maxBackoff ≤ b * 2 := hb
        _ ≤ b * 2 * 2 ^ i := Nat.le_mul_of_pos_right _ hp
        _ = b * 2 ^ (i + 1) := by rw [pow_succ]; ring
    rw [Nat.min_eq_right h1, Nat.min_eq_right h2]

/-- The backoff sleeps of `k` consecutive auth-failure iterations, starting
from an arbitrary in-range backoff `s.backoff ≤ 300`: the i-th sleep
(0-based) is `min (s.backoff·2^i) 300`. -/
theorem authFail_sleeps (t : ℚ) (k : Nat) : ∀ (s : LoopState),
    s.backoff ≤ maxBackoff →
    backoffSleeps (runRenewalLoop t s (List.replicate k .authFail)).2 =
      (List.range k).map (fun i => min (s.backoff * 2 ^ i) maxBackoff) := by
  induction k with
  | zero => intro s h; simp [runRenewalLoop, backoffSleeps]
  | succ k ih =>
      intro s h
      rw [List.replicate_succ]
      have hstep :
          runRenewalLoop t s (.authFail :: List.replicate k .authFail) =
            (let p := renewalIteration t s .authFail
             let q := runRenewalLoop t p.1 (List.replicate k .authFail)
             (q.1, p.2 ++ q.2)) := rfl
      rw [hstep]
      simp only [renewalIteration]
      rw [backoffSleeps_append]
      have hrec := ih { s with backoff := min (s.backoff * 2) maxBackoff }
          (Nat.min_le_right _ _)
      simp only [backoffSleeps] at hrec ⊢
      rw [hrec, List.range_succ_eq_map, List.map_cons, List.map_map]
      have hfun : (fun i => min (s.backoff * 2 ^ i) maxBackoff) ∘ Nat.succ =
          fun i => min (min (s.backoff * 2) maxBackoff * 2 ^ i) maxBackoff := by
        funext i
        simp only [Function.comp_apply]
        exact (saturating_double_pow s.backoff i).symm
      rw [hfun]
      simp [Nat.min_eq_left h]

/-- One renewal iteration only ever sends `Some` material on the watch
channel. -/
theorem iteration_publishes_some (t : ℚ) (s : LoopState) (o : IterOutcome) :
    (publishedValues (renewalIteration t s o).2).all Option.isSome = true := by
  rcases o with _ | _ | ⟨w, p, b⟩
  · simp [renewalIteration, publishedValues]
  · simp [renewalIteration, publishedValues]
  · cases w <;> cases p <;> simp [renewalIteration, publishedValues]

/-- One renewal iteration never empties the watch channel slot. -/
theorem iteration_preserves_isSome (t : ℚ) (s : LoopState) (o : IterOutcome)
    (h : s.published.isSome = true) :
    ((renewalIteration t s o).1).published.isSome = true := by
  rcases o with _ | _ | ⟨w, p, b⟩
  · simpa [renewalIteration] using h
  · simpa [renewalIteration] using h
  · cases w <;> cases p <;> simp [renewalIteration] <;> exact h

/-! ## Claim theorems -/

/-- C1 (counterexample): at a concrete state with lease 3600 and published
material `bundleA`, a renewal iteration whose bundle (`bundleB`, lease 7200)
fails to parse sends nothing and keeps serving `bundleA` — but the loop's
lease value IS updated to 7200, refuting the claim that the lease is not
updated on a parse failure. -/
theorem C1_parse_failure_lease_counterexample :
    publishedValues (renewalIteration (1/2)
        ⟨3600, 5, some bundleA⟩ (.renewOk true false bundleB)).2 = [] ∧
    ((renewalIteration (1/2)
        ⟨3600, 5, some bundleA⟩ (.renewOk true false bundleB)).1).published =
      some bundleA ∧
    ((renewalIteration (1/2)
        ⟨3600, 5, some bundleA⟩ (.renewOk true false bundleB)).1).lease_secs =
      7200 ∧
    7200 ≠ 3600 := by
  refine ⟨by decide, by decide, by decide, by decide⟩

/-- C1 (amended): when parsing the renewed bundle fails, nothing is sent on
the watch channel and the previously published material stays in force; the
loop's lease value, however, is updated to the renewed bundle's
`lease_duration_secs` (and the backoff is reset to 5 s), so the next renewal
is scheduled against the NEW lease. -/
theorem C1_parse_failure_no_publish (t : ℚ) (s : LoopState) (w : Bool)
    (b : CertBundle) :
    publishedValues (renewalIteration t s (.renewOk w false b)).2 = [] ∧
    ((renewalIteration t s (.renewOk w false b)).1).published = s.published ∧
    ((renewalIteration t s (.renewOk w false b)).1).lease_secs =
      b.lease_duration_secs ∧
    ((renewalIteration t s (.renewOk w false b)).1).backoff = 5 := by
  cases w <;> simp [renewalIteration, publishedValues]

/-- C2: over any finite sequence of renewal iterations with any mix of
auth, issue and parse failures, every value the loop sends on the watch
channel is `Some` material, and if the slot holds a value when the loop
starts it still holds one after every iteration — the broadcast is never
cleared or downgraded. -/
theorem C2_renewal_never_degrades (t : ℚ) (s : LoopState)
    (os : List IterOutcome) (h : s.published.isSome = true) :
    (publishedValues (runRenewalLoop t s os).2).all Option.isSome = true ∧
    ((runRenewalLoop t s os).1).published.isSome = true := by
  induction os generalizing s with
  | nil => exact ⟨rfl, h⟩
  | cons o os ih =>
      have hstep :
          runRenewalLoop t s (o :: os) =
            (let p := renewalIteration t s o
             let q := runRenewalLoop t p.1 os
             (q.1, p.2 ++ q.2)) := rfl
      rw [hstep]
      have h1 := iteration_publishes_some t s o
      have h2 := iteration_preserves_isSome t s o h
      have hrest := ih (renewalIteration t s o).1 h2
      refine ⟨?_, hrest.2⟩
      simp only [publishedValues_append, List.all_append]
      exact (Bool.and_eq_true _ _).mpr ⟨h1, hrest.1⟩

/-- C2 (witness): a concrete run through an auth failure, an issue failure,
a parse failure and a successful renewal, starting with `bundleA`
published, ends with the slot still occupied. -/
theorem C2_renewal_never_degrades_witness :
    ((runRenewalLoop (1/2) ⟨3600, 5, some bundleA⟩
        [.authFail, .issueFail, .renewOk true false bundleB,
          .renewOk false true bundleB]).1).published.isSome = true :=
  (C2_renewal_never_degrades (1/2) ⟨3600, 5, some bundleA⟩
    [.authFail, .issueFail, .renewOk true false bundleB,
      .renewOk false true bundleB] rfl).2

/-- C3 (counterexample): two consecutive issue-stage failures (each
iteration's login succeeding, as it must for issuance to be attempted)
sleep 5 s and then 5 s again, because the intervening successful login
resets the shared backoff; the claim's formula predicts
`min (5·2^(2-1)) 300 = 10` s for the second failure. -/
theorem C3_backoff_counterexample :
    backoffSleeps (runRenewalLoop (1/2) ⟨3600, 5, none⟩
        [.issueFail, .issueFail]).2 = [5, 5] ∧
    min (5 * 2 ^ (2 - 1)) 300 = 10 := by
  refine ⟨by decide, by decide⟩

/-- C3 (amended): the backoff is a single duration shared by the auth and
issue stages, initialised to 5 s and capped at 300 s; every failing
iteration sleeps the current backoff and then doubles it, saturating at the
cap, and a stage success (login success, or a successful renewal) resets it
to 5 s.  Consequently the escalation formula is relative to the backoff `b`
at the start of the failure streak, not to a constant 5 s: from any in-range
backoff `b ≤ 300` — an invariant of the loop, also proved here — the sleep
on the k-th consecutive auth failure is `min (b·2^(k−1)) 300`.  In
particular that is `min (5·2^(k−1)) 300` when the streak follows a
successful renewal or the loop start, but `min (5·2^k) 300` when it
immediately follows an issue-failure iteration, which leaves the shared
backoff at 10 s; and every issue-failure iteration itself sleeps exactly
5 s, since the login success that precedes issuance resets the backoff. -/
theorem C3_backoff_bounds (t : ℚ) (s : LoopState) (k : Nat)
    (h : s.backoff ≤ maxBackoff) :
    backoffSleeps (runRenewalLoop t s (List.replicate k .authFail)).2 =
      (List.range k).map (fun i => min (s.backoff * 2 ^ i) 300) ∧
    backoffSleeps (renewalIteration t s .issueFail).2 = [5] ∧
    ((renewalIteration t s .issueFail).1).backoff = 10 ∧
    (∀ w p b, ((renewalIteration t s (.renewOk w p b)).1).backoff = 5) ∧
    (∀ o, ((renewalIteration t s o).1).backoff ≤ maxBackoff) ∧
    backoffSleeps (runRenewalLoop t s
        (.issueFail :: List.replicate k .authFail)).2 =
      5 :: (List.range k).map (fun i => min (10 * 2 ^ i) 300) := by
  refine ⟨?_, by simp [renewalIteration, backoffSleeps], ?_, ?_, ?_, ?_⟩
  · simpa [maxBackoff] using authFail_sleeps t k s h
  · simp [renewalIteration, maxBackoff]
  · intro w p b
    cases w <;> cases p <;> simp [renewalIteration]
  · intro o
    rcases o with _ | _ | ⟨w, p, b⟩
    · exact Nat.min_le_right _ _
    · simp [renewalIteration, maxBackoff]
    · cases w <;> cases p <;> simp [renewalIteration, maxBackoff]
  · have hstep :
        runRenewalLoop t s (.issueFail :: List.replicate k .authFail) =
          (let p := renewalIteration t s .issueFail
           let q := runRenewalLoop t p.1 (List.replicate k .authFail)
           (q.1, p.2 ++ q.2)) := rfl
    rw [hstep]
    simp only [renewalIteration]
    rw [backoffSleeps_append]
    have hrec := authFail_sleeps t k
        { s with backoff := min (5 * 2) maxBackoff } (Nat.min_le_right _ _)
    simp only [backoffSleeps] at hrec ⊢
    rw [hrec]
    norm_num [maxBackoff]

/-- C3 (witness): seven consecutive auth failures from a fresh backoff
sleep 5, 10, 20, 40, 80, 160, 300 seconds — doubling and saturating at the
cap. -/
theorem C3_backoff_bounds_witness :
    backoffSleeps (runRenewalLoop (1/2) ⟨3600, 5, none⟩
        (List.replicate 7 .authFail)).2 =
      (List.range 7).map (fun i => min (5 * 2 ^ i) 300) :=
  (C3_backoff_bounds (1/2) ⟨3600, 5, none⟩ 7 (by decide)).1

/-- C4 (counterexample): for the store rooted at `/certs`, the certificate
content is staged at `/certs/tls.tmp` — the final extension is replaced by
`tmp` (`Path::with_extension`) — and NOT at `/certs/tls.crt.tmp` as the
claim's "`.tmp` suffix appended to the final file name" prescribes. -/
theorem C4_store_tmp_name_counterexample :
    FsOp.writeFile "/certs/tls.crt.tmp" "CERT-A" ∉
      (CertStore.mk "/certs").write bundleA ∧
    FsOp.writeFile "/certs/tls.tmp" "CERT-A" ∈
      (CertStore.mk "/certs").write bundleA ∧
    withExtension "/certs/tls.crt" "tmp" = "/certs/tls.tmp" := by
  refine ⟨by decide, by decide, by decide⟩

/-- C4 (amended): `write(bundle)` creates the directory and then writes the
three PEM strings in the order cert (`tls.crt`), key (`tls.key`), ca
(`ca.crt`), each by writing the content to a temporary file and atomically
renaming it over the final name — where the temporary name is the final
name with its extension REPLACED by `tmp` (e.g. `tls.tmp` for `tls.crt`),
not with `.tmp` appended. -/
theorem C4_store_write_order (st : CertStore) (b : CertBundle) :
    st.write b =
      [FsOp.createDirAll st.dir,
       FsOp.writeFile (withExtension st.cert_path "tmp") b.certificate,
       FsOp.rename (withExtension st.cert_path "tmp") st.cert_path,
       FsOp.writeFile (withExtension st.key_path "tmp") b.private_key,
       FsOp.rename (withExtension st.key_path "tmp") st.key_path,
       FsOp.writeFile (withExtension st.ca_path "tmp") b.ca_certificate,
       FsOp.rename (withExtension st.ca_path "tmp") st.ca_path] := rfl

/-- C5 (counterexample): two successful login responses that differ only in
`auth.lease_duration` (100 vs 200) produce identical results — the lease
duration is not returned to the caller; the Rust function's success value
is `()`. -/
theorem C5_login_return_counterexample :
    kubernetes_login "" (some "jwt") (.response 200 (some ⟨"tok", 100⟩) "") =
      kubernetes_login "" (some "jwt")
        (.response 200 (some ⟨"tok", 200⟩) "") ∧
    kubernetes_login "" (some "jwt") (.response 200 (some ⟨"tok", 100⟩) "") =
      ("tok", .ok ()) := by
  refine ⟨by decide, by decide⟩

/-- C5 (amended): on a successful login (2xx status, well-formed body) the
response's `auth.client_token` is stored in the session-token slot, and the
function returns `Ok(())` — the `auth.lease_duration` is logged but not
returned; the Manager takes its renewal lease from the issue response
instead. -/
theorem C5_login_success (slot jwt bodyText : String) (status : Nat)
    (auth : AuthData) (h : statusIsSuccess status = true) :
    kubernetes_login slot (some jwt) (.response status (some auth) bodyText) =
      (auth.client_token, .ok ()) := by
  simp [kubernetes_login, h]

/-- C5 (witness): a concrete 200 response with token `tok` stores `tok`
and returns `Ok(())`. -/
theorem C5_login_success_witness :
    kubernetes_login "old" (some "jwt") (.response 200 (some ⟨"tok", 42⟩) "") =
      ("tok", .ok ()) :=
  C5_login_success "old" "jwt" "" 200 ⟨"tok", 42⟩ rfl

/-- C6: an iteration whose login fails never attempts issuance, and an
issue failure immediately after a successful login sleeps exactly 5 s —
whatever backoff prior auth failures had accumulated — because the
successful login reset the backoff. -/
theorem C6_auth_failure_skips_issue (t : ℚ) (s : LoopState) :
    LoopEvent.issueAttempt ∉ (renewalIteration t s .authFail).2 ∧
    backoffSleeps (renewalIteration t s .issueFail).2 = [5] := by
  refine ⟨?_, by simp [renewalIteration, backoffSleeps]⟩
  simp [renewalIteration]

/-- C7: a failed disk write during a renewal iteration only adds a logged
error to the trace: the resulting loop state is identical to the
successful-write case, the same values are published, and with a successful
parse the new bundle's material is still sent. -/
theorem C7_write_failure_still_publishes (t : ℚ) (s : LoopState) (p : Bool)
    (b : CertBundle) :
    (renewalIteration t s (.renewOk false p b)).1 =
      (renewalIteration t s (.renewOk true p b)).1 ∧
    publishedValues (renewalIteration t s (.renewOk false p b)).2 =
      publishedValues (renewalIteration t s (.renewOk true p b)).2 ∧
    LoopEvent.writeFailLogged ∈ (renewalIteration t s (.renewOk false p b)).2 ∧
    publishedValues (renewalIteration t s (.renewOk false true b)).2 =
      [some b] := by
  cases p <;> simp [renewalIteration, publishedValues]

/-- C8: every successful issue response yields a bundle whose certificate
field is byte-for-byte `trim(leaf) ++ "\n" ++ trim(issuing_ca)` (and whose
other fields are the untrimmed private key, the issuing CA, and the
top-level lease duration). -/
theorem C8_issue_chain_assembly (status : Nat) (resp : PkiResponse)
    (bodyText : String) (h : statusIsSuccess status = true) :
    issue_certificate (.response status (some resp) bodyText) =
      .ok { certificate := strTrim resp.data.certificate ++ "\n" ++
              strTrim resp.data.issuing_ca,
            private_key := resp.data.private_key,
            ca_certificate := resp.data.issuing_ca,
            lease_duration_secs := resp.lease_duration } := by
  simp [issue_certificate, h]

/-- C8 (witness): a concrete response with whitespace-padded leaf and
issuer assembles the trimmed, newline-separated chain. -/
theorem C8_issue_chain_assembly_witness :
    issue_certificate (.response 200
        (some ⟨⟨"  LEAF  ", " ISSUER ", "KEY"⟩, 99⟩) "") =
      .ok { certificate := strTrim "  LEAF  " ++ "\n" ++ strTrim " ISSUER ",
            private_key := "KEY",
            ca_certificate := " ISSUER ",
            lease_duration_secs := 99 } :=
  C8_issue_chain_assembly 200 ⟨⟨"  LEAF  ", " ISSUER ", "KEY"⟩, 99⟩ "" rfl

/-- C9: the threshold check accepts exactly the values in `[0, 1)` — the
boundary 0 is accepted, 1 is rejected — and every value outside the
interval is rejected with a `Config` error. -/
theorem C9_threshold_bounds (t : ℚ) :
    (0 ≤ t ∧ t < 1 → validate_renewal_threshold t = .ok t) ∧
    (¬(0 ≤ t ∧ t < 1) → validate_renewal_threshold t =
      .error (.Config "RENEWAL_THRESHOLD must be between 0.0 and 1.0")) ∧
    validate_renewal_threshold 0 = .ok 0 ∧
    validate_renewal_threshold 1 =
      .error (.Config "RENEWAL_THRESHOLD must be between 0.0 and 1.0") := by
  refine ⟨fun h => by simp [validate_renewal_threshold, h],
          fun h => by simp [validate_renewal_threshold, h],
          by norm_num [validate_renewal_threshold],
          by norm_num [validate_renewal_threshold]⟩

/-- C9 (witness): the default 0.66 lies in the interval and is accepted;
-0.5 lies outside and is rejected with a `Config` error. -/
theorem C9_threshold_bounds_witness :
    validate_renewal_threshold (33/50) = .ok (33/50) ∧
    validate_renewal_threshold (-(1/2)) =
      .error (.Config "RENEWAL_THRESHOLD must be between 0.0 and 1.0") :=
  ⟨(C9_threshold_bounds (33/50)).1 (by norm_num),
   (C9_threshold_bounds (-(1/2))).2.1 (by norm_num)⟩

/-- C10: whenever login fails — unreadable service-account token file,
transport error, non-2xx status, or undecodable body — the session-token
slot is unchanged; it is written only on the fully parsed success path. -/
theorem C10_login_failure_preserves_token (slot : String)
    (saToken : Option String) (http : HttpResult AuthData) (e : Error)
    (h : (kubernetes_login slot saToken http).2 = .error e) :
    (kubernetes_login slot saToken http).1 = slot := by
  rcases saToken with _ | jwt
  · rfl
  · rcases http with _ | ⟨status, body, bodyText⟩
    · rfl
    · by_cases hs : statusIsSuccess status
      · rcases body with _ | auth
        · simp [kubernetes_login, hs]
        · exact absurd h (by simp [kubernetes_login, hs])
      · simp [kubernetes_login, hs]

/-- C10 (witness): a login attempt with an unreadable service-account
token file leaves the previous token `t0` in place. -/
theorem C10_login_failure_preserves_token_witness :
    (kubernetes_login "t0" none .transportErr).1 = "t0" :=
  C10_login_failure_preserves_token "t0" none .transportErr
    (.VaultAuth "failed to read service account token") rfl

end CertKeeper
